import Mathlib

/-!
# currently_listening: the server's shared state, its writers and its readers

A shallow embedding of `server` in `server/main.go`.

* The four variables declared under `// global state` become the record `State`.
* The bodies of the `/set-listening` and `/clear-listening` handlers, taken after
  `authdPost` and the JSON decoding of the request body have succeeded, become
  `setListening` and `clearListening`.
* One iteration of the goroutine that sleeps ten seconds and then inspects the state
  becomes `reaperTick`.
* The callback given to `m.HandleMessage` becomes `handleMessage`.

`time.Now().Unix()` is an explicit argument `now`. Values of Go type `int64` are
integers; the only arithmetic performed on them, the subtraction in the reaper, wraps
as Go does (`subInt64`). A payload is represented by the Go value handed to
`json.Marshal`; marshalling these records (strings, integers, a boolean, a pointer)
cannot fail, so the `err != nil` branches after it are unreachable and are left out.
`m.Broadcast` is recorded as the list of payloads handed to it, `s.Write` as the list
of payloads written to the sending session.

`setListening`, `clearListening`, `reaperTick` and `handleMessage` describe one
invocation that nothing interrupts, and `run` applies such invocations one after
another. The handlers do not run that way under load: the ordering checks and every call
of `currentlyListeningJSON` outside the reaper happen without the lock. The two sections
on requests served at the same time model those interleavings step by step.
-/

namespace CurrentlyListening

/-! ## Data -/

/-- Modelled from the spec: the record `currently_listening.SetListening` is declared in
the root package of the repository, outside `server/main.go`. The spec gives it as
`SetEvent{artist, album, title, imageBlob?, startedAt: int64}`; the field names are the
ones `main.go` reads (`cur.Artist`, `cur.Album`, `cur.Title`, `cur.StartedAt`,
`cur.Base64Image`). -/
structure SetListening where
  Artist : String
  Album : String
  Title : String
  StartedAt : Int
  Base64Image : String
deriving DecidableEq, Repr

/-- Modelled from the spec: the record `currently_listening.ClearListening` is declared in
the root package of the repository, outside `server/main.go`. The spec gives it as
`ClearEvent{endedAt: int64}`; `main.go` reads `cur.EndedAt`. -/
structure ClearListening where
  EndedAt : Int
deriving DecidableEq, Repr

/-- The Go record `CurrentlyListeningResponse`; a nil `*SetListening` is `none`. -/
structure CurrentlyListeningResponse where
  Song : Option SetListening
  Playing : Bool
deriving DecidableEq, Repr

/-- The Go record `WebsocketResponse`. Its `Data interface{}` only ever holds nil
(`none`) or a `CurrentlyListeningResponse`. -/
structure WebsocketResponse where
  MsgType : String
  Data : Option CurrentlyListeningResponse
deriving DecidableEq, Repr

/-- The variables declared under `// global state` in `server`. The two pointers are
options: `nil` is `none`. -/
structure State where
  currentlyListeningSong : Option SetListening
  currentTimeStamp : Option Int
  lastUpdated : Int
  isCurrentlyPlaying : Bool
deriving DecidableEq, Repr

/-- The zero values the Go declarations give the global state. -/
def init : State :=
  { currentlyListeningSong := none
    currentTimeStamp := none
    lastUpdated := 0
    isCurrentlyPlaying := false }

/-- What a producer gets back from a POST: status 400 with a message that prints the
event timestamp and the stored timestamp, or status 200. -/
inductive Response where
  | badRequest (eventTimestamp latestTimestamp : Int)
  | ok
deriving DecidableEq, Repr

/-- Everything one handler invocation does: the state it leaves, the payloads it hands
to `m.Broadcast`, the payloads it writes to the calling session with `s.Write`, and the
HTTP response when the invocation is a POST. -/
structure Outcome where
  state : State
  broadcast : List WebsocketResponse
  replies : List WebsocketResponse
  response : Option Response
deriving DecidableEq, Repr

/-! ## Machine arithmetic -/

/-- Reduction of an integer to the `int64` range, two's complement. -/
def wrapInt64 (x : Int) : Int :=
  (x + 9223372036854775808) % 18446744073709551616 - 9223372036854775808

/-- Go's `a - b` on `int64`. -/
def subInt64 (a b : Int) : Int :=
  wrapInt64 (a - b)

/-! ## The server -/

/-- The closure `currentlyListeningJSON`: the value it marshals. -/
def currentlyListeningJSON (s : State) : WebsocketResponse :=
  { MsgType := "currently-listening"
    Data := some { Song := s.currentlyListeningSong, Playing := s.isCurrentlyPlaying } }

/-- The condition of the `if` under `// check if currently playing song is newer`. -/
def setCheck (s : State) (cur : SetListening) : Option Int :=
  match s.currentlyListeningSong, s.currentTimeStamp with
  | some _, some ts => if cur.StartedAt < ts then some ts else none
  | _, _ => none

/-- The four assignments under `// set currently playing`, made with the lock held. -/
def setMutate (s : State) (cur : SetListening) (now : Int) : State :=
  { s with
    currentlyListeningSong := some cur
    currentTimeStamp := some cur.StartedAt
    lastUpdated := now
    isCurrentlyPlaying := true }

/-- The `/set-listening` handler run without interruption on a decoded body `cur`. -/
def setListening (s : State) (cur : SetListening) (now : Int) : Outcome :=
  match setCheck s cur with
  | some ts =>
    { state := s, broadcast := [], replies := []
      response := some (Response.badRequest cur.StartedAt ts) }
  | none =>
    let s' := setMutate s cur now
    { state := s', broadcast := [currentlyListeningJSON s'], replies := []
      response := some Response.ok }

/-- The condition of the `if` under
`// check if clear-playing request is newer than current timestamp`. -/
def clearCheck (s : State) (cur : ClearListening) : Option Int :=
  match s.currentTimeStamp with
  | some ts => if cur.EndedAt < ts then some ts else none
  | none => none

/-- The four assignments under `// unset currently playing` in the clear handler. -/
def clearMutate (s : State) (cur : ClearListening) (now : Int) : State :=
  { s with
    currentlyListeningSong := none
    currentTimeStamp := some cur.EndedAt
    lastUpdated := now
    isCurrentlyPlaying := false }

/-- The `/clear-listening` handler run without interruption on a decoded body `cur`. -/
def clearListening (s : State) (cur : ClearListening) (now : Int) : Outcome :=
  match clearCheck s cur with
  | some ts =>
    { state := s, broadcast := [], replies := []
      response := some (Response.badRequest cur.EndedAt ts) }
  | none =>
    let s' := clearMutate s cur now
    { state := s', broadcast := [currentlyListeningJSON s'], replies := []
      response := some Response.ok }

/-- One iteration of the reaper goroutine, after its sleep: the two nested `if`s and the
body that unsets the state and broadcasts. -/
def reaperTick (staleAfter now : Int) (s : State) : Outcome :=
  if s.currentlyListeningSong.isSome && s.isCurrentlyPlaying && s.lastUpdated != 0 then
    if subInt64 now s.lastUpdated > staleAfter then
      let s' : State :=
        { s with
          currentlyListeningSong := none
          currentTimeStamp := none
          isCurrentlyPlaying := false
          lastUpdated := 0 }
      { state := s', broadcast := [currentlyListeningJSON s'], replies := []
        response := none }
    else
      { state := s, broadcast := [], replies := [], response := none }
  else
    { state := s, broadcast := [], replies := [], response := none }

/-- The callback given to `m.HandleMessage`: a `switch` on the text of the message. -/
def handleMessage (s : State) (msg : String) : Outcome :=
  if msg = "currently-listening" then
    { state := s, broadcast := [], replies := [currentlyListeningJSON s], response := none }
  else if msg = "ping" then
    { state := s, broadcast := []
      replies := [{ MsgType := "pong", Data := none }], response := none }
  else
    { state := s, broadcast := [], replies := [], response := none }

/-! ## Sequences of operations -/

/-- The operations that write the state, each with the clock reading it would take. -/
inductive Op where
  | set (cur : SetListening) (now : Int)
  | clear (cur : ClearListening) (now : Int)
  | tick (now : Int)
deriving DecidableEq, Repr

/-- One operation, run without interruption. -/
def step (staleAfter : Int) (s : State) : Op → Outcome
  | Op.set cur now => setListening s cur now
  | Op.clear cur now => clearListening s cur now
  | Op.tick now => reaperTick staleAfter now s

/-- The state after a sequence of operations, each run to completion before the next
one starts. -/
def run (staleAfter : Int) : State → List Op → State
  | s, [] => s
  | s, op :: ops => run staleAfter (step staleAfter s op).state ops

/-- The predicate of the spec's entity model:
`isStale(now, staleAfterSeconds) = present && lastRefreshed != 0 &&
(now - lastRefreshed) > staleAfterSeconds`, the subtraction being that of `int64`. -/
def isStale (s : State) (now staleAfter : Int) : Bool :=
  s.isCurrentlyPlaying && s.lastUpdated != 0 && decide (subInt64 now s.lastUpdated > staleAfter)

/-- Whether a POST was answered with status 200. -/
def Outcome.accepted (o : Outcome) : Bool :=
  match o.response with
  | some Response.ok => true
  | _ => false

/-- Whether a POST was answered with status 400 by an ordering check. -/
def Outcome.rejected (o : Outcome) : Bool :=
  match o.response with
  | some (Response.badRequest _ _) => true
  | _ => false

/-! ## Two `/set-listening` requests served at the same time

`net/http` serves each request on its own goroutine. A `/set-listening` request
evaluates its ordering `if` before it calls `lock.Lock()`, assigns the four variables
between `lock.Lock()` and `lock.Unlock()`, and marshals the state and broadcasts after
`lock.Unlock()`. Those are its three steps; steps of different requests interleave. -/

/-- The next step of a `/set-listening` request. -/
inductive SetPc where
  | check
  | mutate
  | respond
  | done
deriving DecidableEq, Repr

/-- A `/set-listening` request in flight: its decoded body, the clock reading it takes
when it assigns, where it stands, and the response once it has one. -/
structure SetRequest where
  cur : SetListening
  now : Int
  pc : SetPc
  response : Option Response
deriving DecidableEq, Repr

/-- A request that has just been decoded. -/
def SetRequest.start (cur : SetListening) (now : Int) : SetRequest :=
  { cur := cur, now := now, pc := SetPc.check, response := none }

/-- The shared state, the payloads broadcast so far, and two requests in flight. -/
structure World where
  state : State
  broadcast : List WebsocketResponse
  first : SetRequest
  second : SetRequest
deriving DecidableEq, Repr

/-- Which of the two requests takes the next step. -/
inductive Turn where
  | first
  | second
deriving DecidableEq, Repr

/-- One step of one request against the shared state: the state and the broadcasts it
leaves, and the request after the step. -/
def SetRequest.advance (s : State) (r : SetRequest) :
    State × List WebsocketResponse × SetRequest :=
  match r.pc with
  | SetPc.check =>
    match setCheck s r.cur with
    | some ts =>
      (s, [], { r with pc := SetPc.done
                       response := some (Response.badRequest r.cur.StartedAt ts) })
    | none => (s, [], { r with pc := SetPc.mutate })
  | SetPc.mutate => (setMutate s r.cur r.now, [], { r with pc := SetPc.respond })
  | SetPc.respond =>
    (s, [currentlyListeningJSON s], { r with pc := SetPc.done, response := some Response.ok })
  | SetPc.done => (s, [], r)

/-- The scheduler gives one turn to one of the two requests. -/
def World.turn (w : World) : Turn → World
  | Turn.first =>
    let r := w.first.advance w.state
    { w with state := r.1, broadcast := w.broadcast ++ r.2.1, first := r.2.2 }
  | Turn.second =>
    let r := w.second.advance w.state
    { w with state := r.1, broadcast := w.broadcast ++ r.2.1, second := r.2.2 }

/-- The world after a schedule of turns. -/
def World.schedule (w : World) : List Turn → World
  | [] => w
  | t :: ts => (w.turn t).schedule ts

/-- Two freshly decoded requests racing against a state. -/
def race (s : State) (a b : SetListening) (nowA nowB : Int) : World :=
  { state := s, broadcast := [], first := SetRequest.start a nowA
    second := SetRequest.start b nowB }

/-- The schedule in which both requests pass their check before either assigns, the
second request then assigns and answers, and the first request assigns last. -/
def checkThenActSchedule : List Turn :=
  [Turn.first, Turn.second, Turn.second, Turn.second, Turn.first, Turn.first]

/-! ## A subscriber poll while a `/set-listening` request assigns

`lock.Lock()` keeps other holders of the lock out of the four assignments, but the
callback given to `m.HandleMessage` calls `currentlyListeningJSON` without taking the
lock, and the two POST handlers call it after `lock.Unlock()`. Only the reaper marshals
with the lock held. A poll can therefore be served between two of the four assignments.
Here the request advances one source statement at a time, and a poll reads the state in
one step. -/

/-- The next statement of a `/set-listening` request: the ordering `if`, the four
assignments between `lock.Lock()` and `lock.Unlock()` in source order, and the marshal,
broadcast and answer that follow. -/
inductive SetStmt where
  | check
  | assignSong
  | assignTimeStamp
  | assignLastUpdated
  | assignPlaying
  | respond
  | done
deriving DecidableEq, Repr

/-- A `/set-listening` request running statement by statement. -/
structure SetHandler where
  cur : SetListening
  now : Int
  stmt : SetStmt
  response : Option Response
deriving DecidableEq, Repr

/-- One statement of the request against the shared state: the state and the broadcasts
it leaves, and the request after the statement. -/
def SetHandler.advance (s : State) (r : SetHandler) :
    State × List WebsocketResponse × SetHandler :=
  match r.stmt with
  | SetStmt.check =>
    match setCheck s r.cur with
    | some ts =>
      (s, [], { r with stmt := SetStmt.done
                       response := some (Response.badRequest r.cur.StartedAt ts) })
    | none => (s, [], { r with stmt := SetStmt.assignSong })
  | SetStmt.assignSong =>
    ({ s with currentlyListeningSong := some r.cur }, [],
      { r with stmt := SetStmt.assignTimeStamp })
  | SetStmt.assignTimeStamp =>
    ({ s with currentTimeStamp := some r.cur.StartedAt }, [],
      { r with stmt := SetStmt.assignLastUpdated })
  | SetStmt.assignLastUpdated =>
    ({ s with lastUpdated := r.now }, [], { r with stmt := SetStmt.assignPlaying })
  | SetStmt.assignPlaying =>
    ({ s with isCurrentlyPlaying := true }, [], { r with stmt := SetStmt.respond })
  | SetStmt.respond =>
    (s, [currentlyListeningJSON s],
      { r with stmt := SetStmt.done, response := some Response.ok })
  | SetStmt.done => (s, [], r)

/-- The shared state, one request in flight, the payloads broadcast so far and the
payloads written so far to a polling subscriber. -/
structure Server where
  state : State
  handler : SetHandler
  broadcast : List WebsocketResponse
  replies : List WebsocketResponse
deriving DecidableEq, Repr

/-- What happens next: the request executes its next statement, or the message callback
runs on a message from the subscriber. -/
inductive Event where
  | handler
  | message (msg : String)
deriving DecidableEq, Repr

/-- One event. -/
def Server.event (w : Server) : Event → Server
  | Event.handler =>
    let r := w.handler.advance w.state
    { w with state := r.1, broadcast := w.broadcast ++ r.2.1, handler := r.2.2 }
  | Event.message msg =>
    let o := handleMessage w.state msg
    { w with state := o.state, broadcast := w.broadcast ++ o.broadcast
             replies := w.replies ++ o.replies }

/-- The server after a sequence of events. -/
def Server.events (w : Server) : List Event → Server
  | [] => w
  | e :: es => (w.event e).events es

/-- A freshly decoded request arriving at a state. -/
def serve (s : State) (cur : SetListening) (now : Int) : Server :=
  { state := s, handler := { cur := cur, now := now, stmt := SetStmt.check, response := none }
    broadcast := [], replies := [] }

/-- The request passes its check and assigns the song; the subscriber polls; the request
then assigns the timestamp, lastUpdated and the playing flag, and responds. -/
def pollBetweenAssignments : List Event :=
  [Event.handler, Event.handler, Event.message "currently-listening", Event.handler,
    Event.handler, Event.handler, Event.handler]

/-- A track used in the worked scenarios; only its start time varies. -/
def exampleSong (startedAt : Int) : SetListening :=
  { Artist := "artist", Album := "album", Title := "title", StartedAt := startedAt
    Base64Image := "" }

/-! ## Invariant of the reachable states -/

/-- The flag `isCurrentlyPlaying` is set exactly when a song is stored. -/
def PlayingIffSong (s : State) : Prop :=
  s.isCurrentlyPlaying = s.currentlyListeningSong.isSome

/-- A payload that says nothing is playing carries no song. -/
def NotPlayingNoSong (p : WebsocketResponse) : Prop :=
  ∀ d, p.Data = some d → d.Playing = false → d.Song = none

theorem playingIffSong_init : PlayingIffSong init := rfl

theorem playingIffSong_step (staleAfter : Int) (s : State) (op : Op)
    (h : PlayingIffSong s) : PlayingIffSong (step staleAfter s op).state := by
  cases op with
  | set cur now =>
    simp only [step, setListening]
    split
    · exact h
    · rfl
  | clear cur now =>
    simp only [step, clearListening]
    split
    · exact h
    · rfl
  | tick now =>
    simp only [step, reaperTick]
    split_ifs
    · rfl
    · exact h
    · exact h

theorem playingIffSong_run (staleAfter : Int) (ops : List Op) :
    ∀ s, PlayingIffSong s → PlayingIffSong (run staleAfter s ops) := by
  induction ops with
  | nil => intro s h; exact h
  | cons op ops ih =>
    intro s h
    exact ih _ (playingIffSong_step staleAfter s op h)

theorem notPlayingNoSong_json (s : State) (h : PlayingIffSong s) :
    NotPlayingNoSong (currentlyListeningJSON s) := by
  intro d hd hp
  simp only [currentlyListeningJSON, Option.some.injEq] at hd
  subst hd
  simp only [PlayingIffSong] at h
  simp only at hp ⊢
  rw [hp] at h
  cases hs : s.currentlyListeningSong with
  | none => rfl
  | some x => rw [hs] at h; simp at h

/-! ## The ordering checks -/

theorem setCheck_eq_none_iff (s : State) (cur : SetListening) :
    setCheck s cur = none ↔
      ∀ c, s.currentlyListeningSong ≠ none → s.currentTimeStamp = some c → c ≤ cur.StartedAt := by
  unfold setCheck
  cases hs : s.currentlyListeningSong <;> cases ht : s.currentTimeStamp <;> simp

theorem clearCheck_eq_none_iff (s : State) (cur : ClearListening) :
    clearCheck s cur = none ↔ ∀ c, s.currentTimeStamp = some c → c ≤ cur.EndedAt := by
  unfold clearCheck
  cases ht : s.currentTimeStamp <;> simp

theorem setListening_accepted_iff (s : State) (cur : SetListening) (now : Int) :
    (setListening s cur now).accepted = true ↔ setCheck s cur = none := by
  unfold setListening
  cases h : setCheck s cur <;> simp [Outcome.accepted]

theorem setListening_rejected_iff (s : State) (cur : SetListening) (now : Int) :
    (setListening s cur now).rejected = true ↔ setCheck s cur ≠ none := by
  unfold setListening
  cases h : setCheck s cur <;> simp [Outcome.rejected]

theorem clearListening_accepted_iff (s : State) (cur : ClearListening) (now : Int) :
    (clearListening s cur now).accepted = true ↔ clearCheck s cur = none := by
  unfold clearListening
  cases h : clearCheck s cur <;> simp [Outcome.accepted]

theorem clearListening_rejected_iff (s : State) (cur : ClearListening) (now : Int) :
    (clearListening s cur now).rejected = true ↔ clearCheck s cur ≠ none := by
  unfold clearListening
  cases h : clearCheck s cur <;> simp [Outcome.rejected]

/-! ## C1: the stored timestamp across accepted writes -/

/-- C1 as stated is false. After set(startedAt=100) and clear(endedAt=200), both accepted
from the initial state, the stored timestamp is 200 and no song is stored; a set with
startedAt=50 is then accepted and the stored timestamp drops from 200 to 50. Hence it is
not true that every accepted set or clear carries a timestamp at least the stored one. -/
theorem set_after_clear_lowers_timestamp :
    (run 3600 init [Op.set (exampleSong 100) 1000, Op.clear ⟨200⟩ 1001]).currentTimeStamp
        = some 200 ∧
    (setListening (run 3600 init [Op.set (exampleSong 100) 1000, Op.clear ⟨200⟩ 1001])
        (exampleSong 50) 1002).accepted = true ∧
    (setListening (run 3600 init [Op.set (exampleSong 100) 1000, Op.clear ⟨200⟩ 1001])
        (exampleSong 50) 1002).state.currentTimeStamp = some 50 ∧
    ¬ (∀ (staleAfter : Int) (ops : List Op) (c now : Int) (curS : SetListening)
        (curC : ClearListening),
        (run staleAfter init ops).currentTimeStamp = some c →
        ((setListening (run staleAfter init ops) curS now).accepted = true →
          c ≤ curS.StartedAt) ∧
        ((clearListening (run staleAfter init ops) curC now).accepted = true →
          c ≤ curC.EndedAt)) := by
  refine ⟨by decide, by decide, by decide, ?_⟩
  intro h
  have h1 := (h 3600 [Op.set (exampleSong 100) 1000, Op.clear ⟨200⟩ 1001] 200 1002
    (exampleSong 50) ⟨50⟩ (by decide)).1 (by decide)
  revert h1
  decide

/-- C1, amended. In every state reached from the initial state by a sequence of set,
clear and reaper-tick operations and holding a stored timestamp c: an accepted clear has
endedAt >= c and leaves endedAt as the stored timestamp; every clear with endedAt < c is
rejected; while a song is stored, an accepted set has startedAt >= c and leaves startedAt
as the stored timestamp, and every set with startedAt < c is rejected; while no song is
stored, every set is accepted whatever its timestamp. -/
theorem stored_timestamp_across_accepted_writes (staleAfter : Int) (ops : List Op)
    (c now : Int) (curS : SetListening) (curC : ClearListening)
    (hc : (run staleAfter init ops).currentTimeStamp = some c) :
    ((clearListening (run staleAfter init ops) curC now).accepted = true →
      c ≤ curC.EndedAt ∧
      (clearListening (run staleAfter init ops) curC now).state.currentTimeStamp
        = some curC.EndedAt) ∧
    (curC.EndedAt < c →
      (clearListening (run staleAfter init ops) curC now).rejected = true) ∧
    ((run staleAfter init ops).currentlyListeningSong ≠ none →
      (setListening (run staleAfter init ops) curS now).accepted = true →
      c ≤ curS.StartedAt ∧
      (setListening (run staleAfter init ops) curS now).state.currentTimeStamp
        = some curS.StartedAt) ∧
    ((run staleAfter init ops).currentlyListeningSong ≠ none → curS.StartedAt < c →
      (setListening (run staleAfter init ops) curS now).rejected = true) ∧
    ((run staleAfter init ops).currentlyListeningSong = none →
      (setListening (run staleAfter init ops) curS now).accepted = true) := by
  generalize run staleAfter init ops = s at hc
  refine ⟨?_, ?_, ?_, ?_, ?_⟩
  · intro h
    have hn := (clearListening_accepted_iff s curC now).1 h
    refine ⟨(clearCheck_eq_none_iff s curC).1 hn c hc, ?_⟩
    simp [clearListening, hn, clearMutate]
  · intro hlt
    rw [clearListening_rejected_iff]
    intro hn
    have := (clearCheck_eq_none_iff s curC).1 hn c hc
    omega
  · intro hs h
    have hn := (setListening_accepted_iff s curS now).1 h
    refine ⟨(setCheck_eq_none_iff s curS).1 hn c hs hc, ?_⟩
    simp [setListening, hn, setMutate]
  · intro hs hlt
    rw [setListening_rejected_iff]
    intro hn
    have := (setCheck_eq_none_iff s curS).1 hn c hs hc
    omega
  · intro hs
    rw [setListening_accepted_iff, setCheck_eq_none_iff]
    intro c' hne
    exact absurd hs hne

/-- The amended C1 at work: after set(startedAt=100) the stored timestamp is 100 and a
song is stored, so clear(endedAt=200) and set(startedAt=150) are accepted with
timestamps at least 100 while clear(endedAt=50) and set(startedAt=50) are rejected; after
set(100) and clear(200) no song is stored and set(startedAt=50) is accepted. -/
theorem stored_timestamp_across_accepted_writes_witness :
    (run 3600 init [Op.set (exampleSong 100) 1000]).currentTimeStamp = some 100 ∧
    ((100 : Int) ≤ (ClearListening.mk 200).EndedAt ∧
      (clearListening (run 3600 init [Op.set (exampleSong 100) 1000]) ⟨200⟩ 1001).state.currentTimeStamp
        = some (ClearListening.mk 200).EndedAt) ∧
    (clearListening (run 3600 init [Op.set (exampleSong 100) 1000]) ⟨50⟩ 1001).rejected = true ∧
    ((100 : Int) ≤ (exampleSong 150).StartedAt ∧
      (setListening (run 3600 init [Op.set (exampleSong 100) 1000]) (exampleSong 150)
        1001).state.currentTimeStamp = some (exampleSong 150).StartedAt) ∧
    (setListening (run 3600 init [Op.set (exampleSong 100) 1000]) (exampleSong 50)
        1001).rejected = true ∧
    (setListening (run 3600 init [Op.set (exampleSong 100) 1000, Op.clear ⟨200⟩ 1001])
        (exampleSong 50) 1002).accepted = true :=
  ⟨by decide,
   (stored_timestamp_across_accepted_writes 3600 [Op.set (exampleSong 100) 1000] 100 1001
      (exampleSong 150) ⟨200⟩ (by decide)).1 (by decide),
   (stored_timestamp_across_accepted_writes 3600 [Op.set (exampleSong 100) 1000] 100 1001
      (exampleSong 150) ⟨50⟩ (by decide)).2.1 (by decide),
   (stored_timestamp_across_accepted_writes 3600 [Op.set (exampleSong 100) 1000] 100 1001
      (exampleSong 150) ⟨200⟩ (by decide)).2.2.1 (by decide) (by decide),
   (stored_timestamp_across_accepted_writes 3600 [Op.set (exampleSong 100) 1000] 100 1001
      (exampleSong 50) ⟨200⟩ (by decide)).2.2.2.1 (by decide) (by decide),
   (stored_timestamp_across_accepted_writes 3600
      [Op.set (exampleSong 100) 1000, Op.clear ⟨200⟩ 1001] 200 1002
      (exampleSong 50) ⟨200⟩ (by decide)).2.2.2.2 (by decide)⟩

/-! ## C2: ties -/

/-- C2 as stated is false. In the state left by an accepted set(startedAt=100), which
holds a song and the stored timestamp 100, a set with startedAt=100 is accepted, and so
is a clear with endedAt=100: a tie is not rejected. -/
theorem tie_is_accepted :
    (setListening init (exampleSong 100) 1000).state.currentlyListeningSong
        = some (exampleSong 100) ∧
    (setListening init (exampleSong 100) 1000).state.currentTimeStamp = some 100 ∧
    (setListening (setListening init (exampleSong 100) 1000).state (exampleSong 100)
        1001).accepted = true ∧
    (clearListening (setListening init (exampleSong 100) 1000).state ⟨100⟩
        1001).accepted = true ∧
    ¬ ((∀ (s : State) (c now : Int) (cur : SetListening),
          s.currentlyListeningSong ≠ none → s.currentTimeStamp = some c →
          cur.StartedAt ≤ c → (setListening s cur now).rejected = true) ∧
       (∀ (s : State) (c now : Int) (cur : ClearListening),
          s.currentTimeStamp = some c →
          cur.EndedAt ≤ c → (clearListening s cur now).rejected = true)) := by
  refine ⟨by decide, by decide, by decide, by decide, ?_⟩
  intro h
  have h1 := h.2 (setListening init (exampleSong 100) 1000).state 100 1001 ⟨100⟩
    (by decide) (by decide)
  revert h1
  decide

/-- C2, amended. The ordering rule rejects only strictly older events; ties are accepted.
For every state holding a stored timestamp c: a clear is rejected exactly when
endedAt < c and accepted exactly when endedAt >= c (in particular when endedAt = c);
and, when a song is stored, a set is rejected exactly when startedAt < c and accepted
exactly when startedAt >= c (in particular when startedAt = c). -/
theorem ordering_rule_rejects_strictly_older (s : State) (c now : Int)
    (curS : SetListening) (curC : ClearListening) (hc : s.currentTimeStamp = some c) :
    ((clearListening s curC now).rejected = true ↔ curC.EndedAt < c) ∧
    ((clearListening s curC now).accepted = true ↔ c ≤ curC.EndedAt) ∧
    (s.currentlyListeningSong ≠ none →
      ((setListening s curS now).rejected = true ↔ curS.StartedAt < c) ∧
      ((setListening s curS now).accepted = true ↔ c ≤ curS.StartedAt)) := by
  have hclear : clearCheck s curC = none ↔ c ≤ curC.EndedAt := by
    rw [clearCheck_eq_none_iff]
    constructor
    · intro h; exact h c hc
    · intro h c' hc'
      rw [hc] at hc'
      cases hc'
      exact h
  refine ⟨?_, ?_, ?_⟩
  · rw [clearListening_rejected_iff, Ne, hclear]; omega
  · rw [clearListening_accepted_iff, hclear]
  · intro hs
    have hset : setCheck s curS = none ↔ c ≤ curS.StartedAt := by
      rw [setCheck_eq_none_iff]
      constructor
      · intro h; exact h c hs hc
      · intro h c' _ hc'
        rw [hc] at hc'
        cases hc'
        exact h
    refine ⟨?_, ?_⟩
    · rw [setListening_rejected_iff, Ne, hset]; omega
    · rw [setListening_accepted_iff, hset]

/-- The amended C2 at work in the state left by an accepted set(startedAt=100):
clear(endedAt=100) and set(startedAt=100) are accepted, clear(endedAt=99) and
set(startedAt=99) are rejected. -/
theorem ordering_rule_rejects_strictly_older_witness :
    (setListening init (exampleSong 100) 1000).state.currentTimeStamp = some 100 ∧
    (setListening init (exampleSong 100) 1000).state.currentlyListeningSong ≠ none ∧
    (clearListening (setListening init (exampleSong 100) 1000).state ⟨100⟩
        1001).accepted = true ∧
    (clearListening (setListening init (exampleSong 100) 1000).state ⟨99⟩
        1001).rejected = true ∧
    (setListening (setListening init (exampleSong 100) 1000).state (exampleSong 100)
        1001).accepted = true ∧
    (setListening (setListening init (exampleSong 100) 1000).state (exampleSong 99)
        1001).rejected = true :=
  ⟨by decide, by decide,
   (ordering_rule_rejects_strictly_older (setListening init (exampleSong 100) 1000).state
      100 1001 (exampleSong 100) ⟨100⟩ (by decide)).2.1.2 (by decide),
   (ordering_rule_rejects_strictly_older (setListening init (exampleSong 100) 1000).state
      100 1001 (exampleSong 100) ⟨99⟩ (by decide)).1.2 (by decide),
   ((ordering_rule_rejects_strictly_older (setListening init (exampleSong 100) 1000).state
      100 1001 (exampleSong 100) ⟨100⟩ (by decide)).2.2 (by decide)).2.2 (by decide),
   ((ordering_rule_rejects_strictly_older (setListening init (exampleSong 100) 1000).state
      100 1001 (exampleSong 99) ⟨100⟩ (by decide)).2.2 (by decide)).1.2 (by decide)⟩

/-! ## C3: a rejected event changes nothing -/

/-- C3. For every state and every set or clear event rejected by the ordering check, the
outcome leaves the state as it was (song, timestamp, lastUpdated and playing flag all
equal their values before the request), hands nothing to the broadcast and writes
nothing to any subscriber. -/
theorem rejected_event_leaves_state (s : State) (curS : SetListening)
    (curC : ClearListening) (now : Int) :
    ((setListening s curS now).rejected = true →
      (setListening s curS now).state = s ∧
      (setListening s curS now).state.currentlyListeningSong = s.currentlyListeningSong ∧
      (setListening s curS now).state.currentTimeStamp = s.currentTimeStamp ∧
      (setListening s curS now).state.lastUpdated = s.lastUpdated ∧
      (setListening s curS now).state.isCurrentlyPlaying = s.isCurrentlyPlaying ∧
      (setListening s curS now).broadcast = [] ∧
      (setListening s curS now).replies = []) ∧
    ((clearListening s curC now).rejected = true →
      (clearListening s curC now).state = s ∧
      (clearListening s curC now).state.currentlyListeningSong = s.currentlyListeningSong ∧
      (clearListening s curC now).state.currentTimeStamp = s.currentTimeStamp ∧
      (clearListening s curC now).state.lastUpdated = s.lastUpdated ∧
      (clearListening s curC now).state.isCurrentlyPlaying = s.isCurrentlyPlaying ∧
      (clearListening s curC now).broadcast = [] ∧
      (clearListening s curC now).replies = []) := by
  constructor
  · intro h
    unfold setListening at h ⊢
    cases hk : setCheck s curS with
    | none => simp [hk, Outcome.rejected] at h
    | some ts => simp
  · intro h
    unfold clearListening at h ⊢
    cases hk : clearCheck s curC with
    | none => simp [hk, Outcome.rejected] at h
    | some ts => simp

/-- Scenario 1 of the spec: set(startedAt=100) is accepted from the initial state; the
following set(startedAt=50) is rejected and the state still shows the first track,
playing, with timestamp 100; a clear(endedAt=50) is rejected likewise. -/
theorem rejected_event_leaves_state_witness :
    (setListening init (exampleSong 100) 1000).accepted = true ∧
    (setListening (setListening init (exampleSong 100) 1000).state (exampleSong 50)
        1001).rejected = true ∧
    (setListening (setListening init (exampleSong 100) 1000).state (exampleSong 50)
        1001).state =
      { currentlyListeningSong := some (exampleSong 100), currentTimeStamp := some 100
        lastUpdated := 1000, isCurrentlyPlaying := true } ∧
    (setListening (setListening init (exampleSong 100) 1000).state (exampleSong 50)
        1001).broadcast = [] ∧
    (clearListening (setListening init (exampleSong 100) 1000).state ⟨50⟩
        1001).state = (setListening init (exampleSong 100) 1000).state :=
  ⟨by decide, by decide,
   ((rejected_event_leaves_state (setListening init (exampleSong 100) 1000).state
      (exampleSong 50) ⟨50⟩ 1001).1 (by decide)).1,
   ((rejected_event_leaves_state (setListening init (exampleSong 100) 1000).state
      (exampleSong 50) ⟨50⟩ 1001).1 (by decide)).2.2.2.2.2.1,
   ((rejected_event_leaves_state (setListening init (exampleSong 100) 1000).state
      (exampleSong 50) ⟨50⟩ 1001).2 (by decide)).1⟩

/-! ## C4: an accepted event replaces the state -/

/-- C4. For every state and every event whose timestamp is strictly greater than the
stored timestamp, or any event when no timestamp is stored, the event is accepted and the
resulting state is exactly: for a set, the submitted track, timestamp startedAt,
lastUpdated now, playing true; for a clear, no song, timestamp endedAt, lastUpdated now,
playing false. The new state is what is broadcast. -/
theorem newer_event_replaces_state (s : State) (curS : SetListening)
    (curC : ClearListening) (now : Int) :
    ((∀ c, s.currentTimeStamp = some c → c < curS.StartedAt) →
      (setListening s curS now).accepted = true ∧
      (setListening s curS now).state =
        { currentlyListeningSong := some curS, currentTimeStamp := some curS.StartedAt
          lastUpdated := now, isCurrentlyPlaying := true } ∧
      (setListening s curS now).broadcast =
        [{ MsgType := "currently-listening"
           Data := some { Song := some curS, Playing := true } }]) ∧
    ((∀ c, s.currentTimeStamp = some c → c < curC.EndedAt) →
      (clearListening s curC now).accepted = true ∧
      (clearListening s curC now).state =
        { currentlyListeningSong := none, currentTimeStamp := some curC.EndedAt
          lastUpdated := now, isCurrentlyPlaying := false } ∧
      (clearListening s curC now).broadcast =
        [{ MsgType := "currently-listening"
           Data := some { Song := none, Playing := false } }]) := by
  constructor
  · intro h
    have hn : setCheck s curS = none := by
      rw [setCheck_eq_none_iff]
      intro c _ hc
      exact le_of_lt (h c hc)
    simp [setListening, hn, Outcome.accepted, setMutate, currentlyListeningJSON]
  · intro h
    have hn : clearCheck s curC = none := by
      rw [clearCheck_eq_none_iff]
      intro c hc
      exact le_of_lt (h c hc)
    simp [clearListening, hn, Outcome.accepted, clearMutate, currentlyListeningJSON]

/-- Scenario 3 of the spec: set(startedAt=100) is accepted from the initial state, where
no timestamp is stored; clear(endedAt=200) is then accepted and leaves timestamp 200;
clear(endedAt=150) after that is rejected. -/
theorem newer_event_replaces_state_witness :
    (setListening init (exampleSong 100) 1000).state =
      { currentlyListeningSong := some (exampleSong 100)
        currentTimeStamp := some (exampleSong 100).StartedAt
        lastUpdated := 1000, isCurrentlyPlaying := true } ∧
    (clearListening (setListening init (exampleSong 100) 1000).state ⟨200⟩
        1001).accepted = true ∧
    (clearListening (setListening init (exampleSong 100) 1000).state ⟨200⟩ 1001).state =
      { currentlyListeningSong := none, currentTimeStamp := some (ClearListening.mk 200).EndedAt
        lastUpdated := 1001, isCurrentlyPlaying := false } ∧
    (clearListening
        (clearListening (setListening init (exampleSong 100) 1000).state ⟨200⟩ 1001).state
        ⟨150⟩ 1002).rejected = true :=
  ⟨((newer_event_replaces_state init (exampleSong 100) ⟨200⟩ 1000).1 (by decide)).2.1,
   ((newer_event_replaces_state (setListening init (exampleSong 100) 1000).state
      (exampleSong 100) ⟨200⟩ 1001).2 (by decide)).1,
   ((newer_event_replaces_state (setListening init (exampleSong 100) 1000).state
      (exampleSong 100) ⟨200⟩ 1001).2 (by decide)).2.1,
   by decide⟩

/-! ## C5, C6, C7: the reaper -/

theorem subInt64_eq_sub (a b : Int) (hlo : -9223372036854775808 ≤ a - b)
    (hhi : a - b < 9223372036854775808) : subInt64 a b = a - b := by
  unfold subInt64 wrapInt64
  omega

theorem reaperTick_fires_iff (staleAfter now : Int) (s : State) :
    (reaperTick staleAfter now s).broadcast ≠ [] ↔
      (s.currentlyListeningSong.isSome = true ∧ s.isCurrentlyPlaying = true ∧
        s.lastUpdated ≠ 0 ∧ staleAfter < subInt64 now s.lastUpdated) := by
  unfold reaperTick
  split_ifs with h1 h2
  · simp at h1
    simp [h1, h2]
  · simp at h1
    simp [h1, h2]
  · simp at h1
    simp
    intro a b c
    exact absurd (h1 a b) c

theorem reaperTick_state_ne_iff (staleAfter now : Int) (s : State) :
    (reaperTick staleAfter now s).state ≠ s ↔ (reaperTick staleAfter now s).broadcast ≠ [] := by
  unfold reaperTick
  split_ifs with h1 h2
  · simp at h1
    simp
    intro h
    rw [← h] at h1
    simp at h1
  · simp
  · simp

theorem reaperTick_of_fires (staleAfter now : Int) (s : State)
    (h : (reaperTick staleAfter now s).broadcast ≠ []) :
    reaperTick staleAfter now s =
      { state := { currentlyListeningSong := none, currentTimeStamp := none
                   lastUpdated := 0, isCurrentlyPlaying := false }
        broadcast := [{ MsgType := "currently-listening"
                        Data := some { Song := none, Playing := false } }]
        replies := [], response := none } := by
  unfold reaperTick at h ⊢
  split_ifs with h1 h2
  · rfl
  · simp [h1, h2] at h
  · simp [h1] at h

/-- C5. In every state reached from the initial state by set, clear and reaper-tick
operations, for every now and staleAfter: if isStale holds (playing, lastUpdated not 0,
now - lastUpdated > staleAfter) the tick clears the state and broadcasts the cleared
snapshot (song null, playing false); if isStale does not hold, which is exactly when
playing is false or lastUpdated is 0 or now - lastUpdated <= staleAfter, the tick
changes no state variable and broadcasts nothing. So the tick broadcasts exactly when
isStale holds. The subtraction is that of int64; whenever the exact difference
now - lastUpdated fits in an int64, as it does for clock readings, the condition is the
same with the exact difference. -/
theorem reaper_clears_iff_stale (staleAfter : Int) (ops : List Op) (now : Int) :
    (isStale (run staleAfter init ops) now staleAfter = true →
      reaperTick staleAfter now (run staleAfter init ops) =
        { state := { currentlyListeningSong := none, currentTimeStamp := none
                     lastUpdated := 0, isCurrentlyPlaying := false }
          broadcast := [{ MsgType := "currently-listening"
                          Data := some { Song := none, Playing := false } }]
          replies := [], response := none }) ∧
    (isStale (run staleAfter init ops) now staleAfter = false →
      reaperTick staleAfter now (run staleAfter init ops) =
        { state := run staleAfter init ops, broadcast := [], replies := []
          response := none }) ∧
    (isStale (run staleAfter init ops) now staleAfter = false ↔
      ((run staleAfter init ops).isCurrentlyPlaying = false ∨
        (run staleAfter init ops).lastUpdated = 0 ∨
        subInt64 now (run staleAfter init ops).lastUpdated ≤ staleAfter)) ∧
    ((reaperTick staleAfter now (run staleAfter init ops)).broadcast ≠ [] ↔
      isStale (run staleAfter init ops) now staleAfter = true) ∧
    (-9223372036854775808 ≤ now - (run staleAfter init ops).lastUpdated →
      now - (run staleAfter init ops).lastUpdated < 9223372036854775808 →
      ((reaperTick staleAfter now (run staleAfter init ops)).broadcast ≠ [] ↔
        ((run staleAfter init ops).isCurrentlyPlaying = true ∧
          (run staleAfter init ops).lastUpdated ≠ 0 ∧
          staleAfter < now - (run staleAfter init ops).lastUpdated))) := by
  have hinv := playingIffSong_run staleAfter ops init playingIffSong_init
  generalize run staleAfter init ops = s at hinv
  unfold PlayingIffSong at hinv
  have hstale : isStale s now staleAfter = true ↔
      (s.currentlyListeningSong.isSome = true ∧ s.isCurrentlyPlaying = true ∧
        s.lastUpdated ≠ 0 ∧ staleAfter < subInt64 now s.lastUpdated) := by
    simp only [isStale, Bool.and_eq_true, bne_iff_ne, ne_eq, decide_eq_true_eq, gt_iff_lt,
      ← hinv]
    tauto
  have hfire := reaperTick_fires_iff staleAfter now s
  refine ⟨?_, ?_, ?_, ?_, ?_⟩
  · intro h
    exact reaperTick_of_fires staleAfter now s (hfire.2 (hstale.1 h))
  · intro h
    have hnf : ¬ (reaperTick staleAfter now s).broadcast ≠ [] := by
      rw [hfire, ← hstale, h]
      simp
    have hns : ¬ (reaperTick staleAfter now s).state ≠ s := by
      rw [reaperTick_state_ne_iff]
      exact hnf
    unfold reaperTick at hnf hns ⊢
    split_ifs with h1 h2
    · simp [h1, h2] at hnf
    · rfl
    · rfl
  · rw [← Bool.not_eq_true, hstale, ← hinv]
    constructor
    · intro h
      by_cases hp : s.isCurrentlyPlaying = true
      · by_cases hl : s.lastUpdated = 0
        · exact Or.inr (Or.inl hl)
        · refine Or.inr (Or.inr ?_)
          by_contra hgt
          exact h ⟨hp, hp, hl, by omega⟩
      · exact Or.inl (by simpa using hp)
    · rintro (h | h | h) ⟨hp, _, hl, hgt⟩
      · rw [h] at hp; cases hp
      · exact hl h
      · omega
  · rw [hfire, hstale]
  · intro hlo hhi
    rw [hfire, subInt64_eq_sub now s.lastUpdated hlo hhi, ← hinv]
    tauto

/-- Scenario 2 of the spec for C5, with staleAfter = 3600 and a set accepted at
lastUpdated = 1000: the tick at 4601 clears and broadcasts the cleared snapshot; the tick
at 4600, when now - lastUpdated = staleAfter, changes nothing and broadcasts nothing. -/
theorem reaper_clears_iff_stale_witness :
    isStale (run 3600 init [Op.set (exampleSong 100) 1000]) 4601 3600 = true ∧
    reaperTick 3600 4601 (run 3600 init [Op.set (exampleSong 100) 1000]) =
      { state := { currentlyListeningSong := none, currentTimeStamp := none
                   lastUpdated := 0, isCurrentlyPlaying := false }
        broadcast := [{ MsgType := "currently-listening"
                        Data := some { Song := none, Playing := false } }]
        replies := [], response := none } ∧
    isStale (run 3600 init [Op.set (exampleSong 100) 1000]) 4600 3600 = false ∧
    reaperTick 3600 4600 (run 3600 init [Op.set (exampleSong 100) 1000]) =
      { state := run 3600 init [Op.set (exampleSong 100) 1000], broadcast := []
        replies := [], response := none } ∧
    ((reaperTick 3600 4601 (run 3600 init [Op.set (exampleSong 100) 1000])).broadcast ≠ [] ↔
      ((run 3600 init [Op.set (exampleSong 100) 1000]).isCurrentlyPlaying = true ∧
        (run 3600 init [Op.set (exampleSong 100) 1000]).lastUpdated ≠ 0 ∧
        3600 < 4601 - (run 3600 init [Op.set (exampleSong 100) 1000]).lastUpdated)) :=
  ⟨by decide,
   (reaper_clears_iff_stale 3600 [Op.set (exampleSong 100) 1000] 4601).1 (by decide),
   by decide,
   (reaper_clears_iff_stale 3600 [Op.set (exampleSong 100) 1000] 4600).2.1 (by decide),
   (reaper_clears_iff_stale 3600 [Op.set (exampleSong 100) 1000] 4601).2.2.2.2
     (by decide) (by decide)⟩

/-- C6 as stated is false. With staleAfter = 3600, in the state left by a set with
startedAt=100 accepted at time 1000, the tick at 4601 fires; the stored timestamp was 100
before the tick and is absent after it, so it is not unchanged. -/
theorem reaper_drops_timestamp :
    (setListening init (exampleSong 100) 1000).state.currentTimeStamp = some 100 ∧
    (reaperTick 3600 4601 (setListening init (exampleSong 100) 1000).state).broadcast ≠ [] ∧
    (reaperTick 3600 4601 (setListening init (exampleSong 100) 1000).state).state.currentTimeStamp
      = none ∧
    ¬ (∀ (staleAfter now : Int) (s : State),
        (reaperTick staleAfter now s).broadcast ≠ [] →
        (reaperTick staleAfter now s).state.isCurrentlyPlaying = false ∧
        (reaperTick staleAfter now s).state.currentlyListeningSong = none ∧
        (reaperTick staleAfter now s).state.lastUpdated = 0 ∧
        (reaperTick staleAfter now s).state.currentTimeStamp = s.currentTimeStamp) := by
  refine ⟨by decide, by decide, by decide, ?_⟩
  intro h
  have h1 := (h 3600 4601 (setListening init (exampleSong 100) 1000).state (by decide)).2.2.2
  revert h1
  decide

/-- C6, amended. For every state in which the reaper tick fires, the resulting state has
playing=false, no song and lastUpdated=0, and the stored event timestamp is reset to
absent, whatever it was before the tick. -/
theorem reaper_fired_state (staleAfter now : Int) (s : State)
    (h : (reaperTick staleAfter now s).broadcast ≠ []) :
    (reaperTick staleAfter now s).state.isCurrentlyPlaying = false ∧
    (reaperTick staleAfter now s).state.currentlyListeningSong = none ∧
    (reaperTick staleAfter now s).state.lastUpdated = 0 ∧
    (reaperTick staleAfter now s).state.currentTimeStamp = none := by
  rw [reaperTick_of_fires staleAfter now s h]
  exact ⟨rfl, rfl, rfl, rfl⟩

/-- The amended C6 at the state left by a set accepted at time 1000, tick at 4601 with
staleAfter = 3600. -/
theorem reaper_fired_state_witness :
    (reaperTick 3600 4601 (setListening init (exampleSong 100) 1000).state).broadcast ≠ [] ∧
    (reaperTick 3600 4601 (setListening init (exampleSong 100) 1000).state).state.isCurrentlyPlaying
      = false ∧
    (reaperTick 3600 4601 (setListening init (exampleSong 100) 1000).state).state.currentlyListeningSong
      = none ∧
    (reaperTick 3600 4601 (setListening init (exampleSong 100) 1000).state).state.lastUpdated
      = 0 ∧
    (reaperTick 3600 4601 (setListening init (exampleSong 100) 1000).state).state.currentTimeStamp
      = none :=
  ⟨by decide,
   reaper_fired_state 3600 4601 (setListening init (exampleSong 100) 1000).state (by decide)⟩

/-- C7. For every state, every staleAfter and every pair of times now1, now2: if a reaper
tick at now1 clears the state (it broadcasts, or equivalently changes the state), then a
second tick at now2 applied directly to the resulting state changes nothing and
broadcasts nothing. -/
theorem reaper_second_tick_is_noop (staleAfter now1 now2 : Int) (s : State)
    (h : (reaperTick staleAfter now1 s).broadcast ≠ [] ∨
      (reaperTick staleAfter now1 s).state ≠ s) :
    reaperTick staleAfter now2 (reaperTick staleAfter now1 s).state =
      { state := (reaperTick staleAfter now1 s).state, broadcast := [], replies := []
        response := none } := by
  have hf : (reaperTick staleAfter now1 s).broadcast ≠ [] := by
    rcases h with h | h
    · exact h
    · exact (reaperTick_state_ne_iff staleAfter now1 s).1 h
  rw [reaperTick_of_fires staleAfter now1 s hf]
  rfl

/-- Scenario 2 of the spec, with staleAfter = 3600 and lastUpdated = T = 1000: the tick at
T + staleAfter + 1 = 4601 clears and broadcasts playing=false; an immediate second tick
broadcasts nothing and leaves the cleared state. -/
theorem reaper_second_tick_is_noop_witness :
    (reaperTick 3600 4601 (setListening init (exampleSong 100) 1000).state).broadcast =
      [{ MsgType := "currently-listening", Data := some { Song := none, Playing := false } }] ∧
    reaperTick 3600 4601
        (reaperTick 3600 4601 (setListening init (exampleSong 100) 1000).state).state =
      { state := (reaperTick 3600 4601 (setListening init (exampleSong 100) 1000).state).state
        broadcast := [], replies := [], response := none } :=
  ⟨by decide,
   reaper_second_tick_is_noop 3600 4601 4601 (setListening init (exampleSong 100) 1000).state
     (Or.inl (by decide))⟩

/-! ## C8: nothing playing, no song -/

theorem run_not_playing_no_song (staleAfter : Int) (ops : List Op)
    (h : (run staleAfter init ops).isCurrentlyPlaying = false) :
    (run staleAfter init ops).currentlyListeningSong = none :=
  notPlayingNoSong_json _ (playingIffSong_run staleAfter ops init playingIffSong_init) _ rfl h

theorem handler_alone_eq_setListening (s : State) (cur : SetListening) (now : Int) :
    ((serve s cur now).events
        [Event.handler, Event.handler, Event.handler, Event.handler, Event.handler,
          Event.handler]).state = (setListening s cur now).state ∧
    ((serve s cur now).events
        [Event.handler, Event.handler, Event.handler, Event.handler, Event.handler,
          Event.handler]).broadcast = (setListening s cur now).broadcast ∧
    ((serve s cur now).events
        [Event.handler, Event.handler, Event.handler, Event.handler, Event.handler,
          Event.handler]).handler.response = (setListening s cur now).response ∧
    ((serve s cur now).events
        [Event.handler, Event.handler, Event.handler, Event.handler, Event.handler,
          Event.handler]).handler.stmt = SetStmt.done := by
  cases h : setCheck s cur <;>
    simp [serve, Server.events, Server.event, SetHandler.advance, setListening, setMutate, h]

/-- C8 fails on the code. A set request with startedAt=100 arrives at the initial state
and a subscriber sends "currently-listening" after the request has assigned
currentlyListeningSong and before it assigns isCurrentlyPlaying. At that moment the state
holds the song with the playing flag still false, and the reply written to the
subscriber has playing=false with song = the submitted track, not null. The request then
completes as it would alone. When the poll is served before the request starts or after
it has finished, the reply has song null with playing=false, or the track with
playing=true. -/
theorem poll_between_assignments_song_not_playing :
    ((serve init (exampleSong 100) 1000).events
        [Event.handler, Event.handler]).state.currentlyListeningSong
      = some (exampleSong 100) ∧
    ((serve init (exampleSong 100) 1000).events
        [Event.handler, Event.handler]).state.isCurrentlyPlaying = false ∧
    ((serve init (exampleSong 100) 1000).events
        [Event.handler, Event.handler]).handler.stmt = SetStmt.assignTimeStamp ∧
    ((serve init (exampleSong 100) 1000).events pollBetweenAssignments).replies =
      [{ MsgType := "currently-listening"
         Data := some { Song := some (exampleSong 100), Playing := false } }] ∧
    ¬ (∀ p ∈ ((serve init (exampleSong 100) 1000).events pollBetweenAssignments).replies,
        NotPlayingNoSong p) ∧
    ((serve init (exampleSong 100) 1000).events pollBetweenAssignments).state =
      (setListening init (exampleSong 100) 1000).state ∧
    ((serve init (exampleSong 100) 1000).events pollBetweenAssignments).handler.response =
      some Response.ok ∧
    ((serve init (exampleSong 100) 1000).events
        [Event.message "currently-listening", Event.handler, Event.handler, Event.handler,
          Event.handler, Event.handler, Event.handler]).replies =
      [{ MsgType := "currently-listening"
         Data := some { Song := none, Playing := false } }] ∧
    ((serve init (exampleSong 100) 1000).events
        [Event.handler, Event.handler, Event.handler, Event.handler, Event.handler,
          Event.handler, Event.message "currently-listening"]).replies =
      [{ MsgType := "currently-listening"
         Data := some { Song := some (exampleSong 100), Playing := true } }] := by
  refine ⟨by decide, by decide, by decide, by decide, ?_, by decide, by decide, by decide,
    by decide⟩
  intro h
  have h1 := h { MsgType := "currently-listening"
                 Data := some { Song := some (exampleSong 100), Playing := false } }
    (by decide) { Song := some (exampleSong 100), Playing := false } rfl rfl
  cases h1

/-! ## C9: two racing sets -/

theorem solo_request_eq_setListening (s : State) (a b : SetListening) (nowA nowB : Int) :
    ((race s a b nowA nowB).schedule [Turn.first, Turn.first, Turn.first]).state
      = (setListening s a nowA).state ∧
    ((race s a b nowA nowB).schedule [Turn.first, Turn.first, Turn.first]).broadcast
      = (setListening s a nowA).broadcast ∧
    ((race s a b nowA nowB).schedule [Turn.first, Turn.first, Turn.first]).first.response
      = (setListening s a nowA).response ∧
    ((race s a b nowA nowB).schedule [Turn.first, Turn.first, Turn.first]).first.pc
      = SetPc.done := by
  cases h : setCheck s a <;>
    simp [race, World.schedule, World.turn, SetRequest.advance, SetRequest.start,
      setListening, h]

/-- C9 fails on the code. Two set requests with startedAt = 100 and startedAt = 101 race
against the initial state, where each would be accepted on its own. Under the schedule
check(100), check(101), assign(101), respond(101), assign(100), respond(100) both
requests run to completion, both are answered with status 200, none is rejected, and the
final stored timestamp is 100, not max(100, 101) = 101: the older request has overwritten
the newer state. When the two requests run one after the other, in either order, the
final stored timestamp is 101. -/
theorem racing_sets_keep_older_timestamp :
    (setListening init (exampleSong 100) 1000).accepted = true ∧
    (setListening init (exampleSong 101) 1000).accepted = true ∧
    ((race init (exampleSong 100) (exampleSong 101) 1000 1000).schedule
        checkThenActSchedule).first.pc = SetPc.done ∧
    ((race init (exampleSong 100) (exampleSong 101) 1000 1000).schedule
        checkThenActSchedule).second.pc = SetPc.done ∧
    ((race init (exampleSong 100) (exampleSong 101) 1000 1000).schedule
        checkThenActSchedule).first.response = some Response.ok ∧
    ((race init (exampleSong 100) (exampleSong 101) 1000 1000).schedule
        checkThenActSchedule).second.response = some Response.ok ∧
    ((race init (exampleSong 100) (exampleSong 101) 1000 1000).schedule
        checkThenActSchedule).state.currentTimeStamp = some 100 ∧
    ((race init (exampleSong 100) (exampleSong 101) 1000 1000).schedule
        checkThenActSchedule).state.currentlyListeningSong = some (exampleSong 100) ∧
    ((race init (exampleSong 100) (exampleSong 101) 1000 1000).schedule
        [Turn.first, Turn.first, Turn.first, Turn.second, Turn.second,
          Turn.second]).state.currentTimeStamp = some 101 ∧
    ((race init (exampleSong 100) (exampleSong 101) 1000 1000).schedule
        [Turn.second, Turn.second, Turn.second, Turn.first, Turn.first,
          Turn.first]).state.currentTimeStamp = some 101 ∧
    ((race init (exampleSong 100) (exampleSong 101) 1000 1000).schedule
        [Turn.second, Turn.second, Turn.second, Turn.first, Turn.first,
          Turn.first]).first.response = some (Response.badRequest 100 101) := by
  decide

/-! ## C10: subscriber messages -/

/-- C10. The subscriber message handler dispatches on the exact text of the message and
touches nothing else. For every state and message m: if m = "currently-listening" it
writes exactly one reply to the sender, the envelope of type "currently-listening" whose
data is the current song and playing flag; if m = "ping" it writes exactly one reply, the
envelope of type "pong" with null data; for every other m it writes no reply; in all
three cases the state is unchanged and nothing is broadcast. -/
theorem handleMessage_dispatch (s : State) (msg : String) :
    (msg = "currently-listening" →
      (handleMessage s msg).replies =
        [{ MsgType := "currently-listening"
           Data := some { Song := s.currentlyListeningSong
                          Playing := s.isCurrentlyPlaying } }]) ∧
    (msg = "ping" →
      (handleMessage s msg).replies = [{ MsgType := "pong", Data := none }]) ∧
    (msg ≠ "currently-listening" → msg ≠ "ping" → (handleMessage s msg).replies = []) ∧
    (handleMessage s msg).state = s ∧
    (handleMessage s msg).broadcast = [] ∧
    (handleMessage s msg).response = none := by
  unfold handleMessage
  refine ⟨?_, ?_, ?_, ?_, ?_, ?_⟩
  · intro h
    subst h
    simp [currentlyListeningJSON]
  · intro h
    subst h
    simp
  · intro h1 h2
    simp [h1, h2]
  · split_ifs <;> rfl
  · split_ifs <;> rfl
  · split_ifs <;> rfl

/-- C10 in the state left by an accepted set(startedAt=100): the poll is answered with
the stored track and playing=true, the ping with a pong, and "pong" itself with nothing. -/
theorem handleMessage_dispatch_witness :
    (handleMessage (setListening init (exampleSong 100) 1000).state
        "currently-listening").replies =
      [{ MsgType := "currently-listening"
         Data := some
           { Song := (setListening init (exampleSong 100) 1000).state.currentlyListeningSong
             Playing := (setListening init (exampleSong 100) 1000).state.isCurrentlyPlaying } }] ∧
    (handleMessage (setListening init (exampleSong 100) 1000).state "ping").replies =
      [{ MsgType := "pong", Data := none }] ∧
    (handleMessage (setListening init (exampleSong 100) 1000).state "pong").replies = [] ∧
    (handleMessage (setListening init (exampleSong 100) 1000).state "ping").state =
      (setListening init (exampleSong 100) 1000).state :=
  ⟨(handleMessage_dispatch (setListening init (exampleSong 100) 1000).state
      "currently-listening").1 rfl,
   (handleMessage_dispatch (setListening init (exampleSong 100) 1000).state "ping").2.1 rfl,
   (handleMessage_dispatch (setListening init (exampleSong 100) 1000).state "pong").2.2.1
      (by decide) (by decide),
   (handleMessage_dispatch (setListening init (exampleSong 100) 1000).state "ping").2.2.2.1⟩

end CurrentlyListening
